import Mathlib

/-!
# Verification of the farming-chatbot core (src/main.py)

Shallow embedding of the knowledge-base lookup and message-interpretation
logic of the `FarmingChatbot` class. The knowledge base is an
insertion-ordered association list (Python dicts preserve insertion order),
fact values are strings or ordered lists of strings, and all matching is
plain case-insensitive substring containment, exactly as in the source.
Python truthiness of optional strings (`if topic:`/`if not crop_type:`)
is modelled explicitly: `none` and `some ""` are both falsy.
-/

/-- A fact value in a crop record: a single string fact or an ordered
list of string facts (the JSON values are strings or arrays of strings). -/
inductive FactValue where
  | str (s : String)
  | list (l : List String)
deriving Repr, DecidableEq

/-- A crop record: an insertion-ordered mapping from topic key to value. -/
abbrev CropRecord := List (String × FactValue)

/-- The knowledge base: an insertion-ordered mapping from crop name to
crop record (`self.crop_data`). -/
abbrev KnowledgeBase := List (String × CropRecord)

/-- Infix test on character lists: `needle` occurs contiguously in `hay`. -/
def charsInfix (needle : List Char) : List Char → Bool
  | [] => needle.isEmpty
  | c :: rest => needle.isPrefixOf (c :: rest) || charsInfix needle rest

/-- Python's `needle in hay` substring containment on strings. -/
def strContains (hay needle : String) : Bool :=
  charsInfix needle.data hay.data

/-- Python's `str.lower()` (ASCII): every character lowercased. -/
def strLower (s : String) : String :=
  ⟨s.data.map Char.toLower⟩

/-- Python's single-character `str.replace(pat, repl)`: every occurrence
of the character `pat` replaced by `repl`. -/
def replaceChar (s : String) (pat repl : Char) : String :=
  ⟨s.data.map (fun c => if c = pat then repl else c)⟩

/-- Python dict lookup `d[k]` / membership, on the association-list model:
the value of the first entry whose key equals `k`, if any. -/
def lookupKey {α : Type} (l : List (String × α)) (k : String) : Option α :=
  (l.find? (fun e => e.1 == k)).map (fun e => e.2)

/-- Python truthiness of an optional string: `None` and `""` are falsy. -/
def truthy : Option String → Bool
  | none => false
  | some s => !(s == "")

/-- Generic first-match scan over an association list, mirroring a Python
`for k, v in d.items(): if p(k): return f(k, v)` loop returning `None`
when the loop falls through. -/
def scanFirst {α β : Type} (p : String → Bool) (f : String × α → β) :
    List (String × α) → Option β
  | [] => none
  | e :: rest => if p e.1 then some (f e) else scanFirst p f rest

/-- `FarmingChatbot.get_available_crops`: the crop names in insertion order. -/
def get_available_crops (kb : KnowledgeBase) : List String :=
  kb.map (fun e => e.1)

/-- `FarmingChatbot.detect_crop`: the first crop key whose lowercased name
is a substring of the lowercased message. -/
def detect_crop (kb : KnowledgeBase) (message : String) : Option String :=
  scanFirst (fun crop => strContains (strLower message) (strLower crop))
    (fun e => e.1) kb

/-- The fixed ordered keyword→topic table of
`FarmingChatbot.find_matching_topic`. -/
def keyword_map : List (String × String) :=
  [("plant", "season"),
   ("sow", "season"),
   ("water", "watering"),
   ("irrigation", "irrigation_methods"),
   ("fertilizer", "fertilizer"),
   ("nutrition", "fertilizer"),
   ("harvest", "harvesting"),
   ("problem", "pests"),
   ("disease", "pests"),
   ("pest", "pests"),
   ("tip", "organic_tips"),
   ("advice", "organic_tips"),
   ("soil", "soil"),
   ("yield", "yield"),
   ("spacing", "spacing"),
   ("variety", "varieties"),
   ("germinate", "germination"),
   ("intercrop", "intercropping"),
   ("prune", "pruning"),
   ("special", "special_notes"),
   ("process", "processing"),
   ("store", "storage"),
   ("climate", "climate"),
   ("propagate", "propagation"),
   ("economic", "economic_life")]

/-- `FarmingChatbot.find_matching_topic`: the topic of the first keyword of
the fixed table occurring as a substring of the lowercased message. The
`crop_info` argument is accepted and ignored, as in the source. -/
def find_matching_topic (message : String) (_crop_info : CropRecord) :
    Option String :=
  scanFirst (fun keyword => strContains (strLower message) keyword)
    (fun e => e.2) keyword_map

/-- The unknown-crop branch of `get_crop_advice`. -/
def unknown_crop_message (kb : KnowledgeBase) (crop : String) : String :=
  "Sorry, I don't have information about " ++ crop ++
    ". Available crops: " ++ String.intercalate ", " (get_available_crops kb)

/-- Specific-topic value formatting of `get_crop_advice`: lists are
bulleted one element per line (the source's bullet marker is the literal
three-character sequence "â€¢"), scalars rendered directly. -/
def format_topic_value : FactValue → String
  | .str s => s
  | .list l => "â€¢ " ++ String.intercalate "\nâ€¢ " l

/-- Value rendering inside a general-information block: lists are joined
with newline-bullet separators (no leading bullet in this branch). -/
def general_block_value : FactValue → String
  | .str s => s
  | .list l => String.intercalate "\nâ€¢ " l

/-- Python's `str.title()` on ASCII text: the first letter of every
alphabetic run uppercased, subsequent letters lowercased. -/
def pyTitleAux : Bool → List Char → List Char
  | _, [] => []
  | prevCased, c :: rest =>
    if c.isAlpha then
      (if prevCased then c.toLower else c.toUpper) :: pyTitleAux true rest
    else
      c :: pyTitleAux false rest

/-- Python's `str.title()` on a string. -/
def pyTitle (s : String) : String :=
  ⟨pyTitleAux false s.data⟩

/-- One formatted block of the general-information summary:
`**{topic title-cased, underscores to spaces}:** {value}` plus a blank
line. -/
def general_block (t : String) (value : FactValue) : String :=
  "**" ++ pyTitle (replaceChar t '_' ' ') ++ ":** " ++
    general_block_value value ++ "\n\n"

/-- The fixed ordered list of main topics of the general-information
branch of `get_crop_advice`. -/
def main_topics : List String :=
  ["season", "soil", "watering", "fertilizer", "pests", "harvesting",
   "yield", "spacing", "varieties", "organic_tips"]

/-- The general-information branch of `get_crop_advice`: a header, then
one block per main topic present in the record, accumulated in the fixed
main-topic order. -/
def general_info (crop : String) (crop_info : CropRecord) : String :=
  main_topics.foldl
    (fun response t =>
      match lookupKey crop_info t with
      | some value => response ++ general_block t value
      | none => response)
    ("Here's general information about " ++ crop ++ ":\n\n")

/-- The known-crop part of `get_crop_advice` (everything after the
membership check): Python's `if topic:` is truthiness, so `none` and
`some ""` both take the general-information branch. -/
def known_crop_advice (crop : String) (crop_info : CropRecord)
    (topic : Option String) : String :=
  match topic with
  | some t =>
    if t = "" then general_info crop crop_info
    else
      match lookupKey crop_info t with
      | some value => format_topic_value value
      | none => "No information available for " ++ t ++ " of " ++ crop ++ "."
  | none => general_info crop crop_info

/-- `FarmingChatbot.get_crop_advice`. -/
def get_crop_advice (kb : KnowledgeBase) (crop : String)
    (topic : Option String) : String :=
  match lookupKey kb crop with
  | none => unknown_crop_message kb crop
  | some crop_info => known_crop_advice crop crop_info topic

/-- The `ChatResponse` model: response text, optional crop, optional
suggestions. -/
structure ChatResponse where
  response : String
  crop_type : Option String := none
  suggestions : Option (List String) := none
deriving Repr, DecidableEq

/-- The canned greeting text of `process_message`. -/
def greeting_text : String :=
  "Hello! I'm your farming assistant. I can help you with crop info, irrigation, fertilizers, pests, and more."

/-- The canned default help text of `process_message`. -/
def help_text : String :=
  "I'm here to help with comprehensive farming guidance! Ask me about specific crops or topics."

/-- The greeting response of `process_message`: the canned greeting and
its two canned suggestions, no crop. -/
def greeting_response : ChatResponse :=
  { response := greeting_text,
    suggestions := some ["What crops do you know about?",
                         "Tell me about wheat farming"] }

/-- The default response of `process_message`: the canned help text and
its two canned suggestions, no crop. -/
def default_response : ChatResponse :=
  { response := help_text,
    suggestions := some ["Available crops", "Organic farming tips"] }

/-- `FarmingChatbot.process_message`: the linear decision chain — fill in
the crop hint by detection when falsy, then greeting, then crop listing,
then crop-specific advice when the hint is truthy and a known key, else
the default help response. -/
def process_message (kb : KnowledgeBase) (message : String)
    (crop_type : Option String) : ChatResponse :=
  let message_lower := strLower message
  let ct := if truthy crop_type then crop_type else detect_crop kb message
  if ["hello", "hi", "hey"].any (fun greeting => strContains message_lower greeting) then
    greeting_response
  else if strContains message_lower "what crops" ||
      strContains message_lower "available crops" then
    let crops := get_available_crops kb
    { response := "I have information about: " ++ String.intercalate ", " crops,
      suggestions := some ((crops.take 4).map
        (fun crop => "Complete guide for " ++ crop)) }
  else
    match ct with
    | some c =>
      if !(c == "") && (lookupKey kb c).isSome then
        { response := get_crop_advice kb c
            (find_matching_topic message ((lookupKey kb c).getD [])),
          crop_type := some c }
      else
        default_response
    | none => default_response

/-! ## Sample knowledge bases used by witnesses and counterexamples -/

/-- A one-crop knowledge base: Wheat with a single `season` fact. -/
def kbWheatSeason : KnowledgeBase := [("Wheat", [("season", FactValue.str "Rabi")])]

/-- A two-crop knowledge base. -/
def kbTwo : KnowledgeBase :=
  [("Wheat", [("season", FactValue.str "Rabi")]),
   ("Rice", [("season", FactValue.str "Kharif")])]

/-- The round-trip knowledge base of the loader/formatter claim: Wheat's
`watering` is an ordered two-element list. -/
def kbRoundTrip : KnowledgeBase :=
  [("Wheat", [("watering",
      FactValue.list ["Water every 3 days", "Avoid waterlogging"])])]

/-! ## First-match characterization of the scanning loops -/

/-- A scan returns `none` exactly when no key satisfies the predicate. -/
theorem scanFirst_eq_none_iff {α β : Type} (p : String → Bool)
    (f : String × α → β) (l : List (String × α)) :
    scanFirst p f l = none ↔ ∀ e ∈ l, p e.1 = false := by
  induction l with
  | nil => simp [scanFirst]
  | cons a rest ih =>
    simp only [scanFirst]
    by_cases h : p a.1 = true
    · simp [h]
    · simp [h, ih]

/-- A scan returns `some b` exactly when the list splits around a first
entry whose key satisfies the predicate, with `b` its image and every
earlier key failing. -/
theorem scanFirst_eq_some_iff {α β : Type} (p : String → Bool)
    (f : String × α → β) (l : List (String × α)) (b : β) :
    scanFirst p f l = some b ↔
      ∃ pre e post, l = pre ++ e :: post ∧ p e.1 = true ∧ f e = b ∧
        ∀ e' ∈ pre, p e'.1 = false := by
  induction l with
  | nil =>
    constructor
    · intro h; simp [scanFirst] at h
    · rintro ⟨pre, e, post, h, -⟩
      exact absurd h (by simp)
  | cons a rest ih =>
    simp only [scanFirst]
    by_cases h : p a.1 = true
    · rw [if_pos h]
      constructor
      · intro hb
        exact ⟨[], a, rest, rfl, h, Option.some.inj hb, by simp⟩
      · rintro ⟨pre, e, post, hl, hp, hf, hpre⟩
        cases pre with
        | nil =>
          simp only [List.nil_append] at hl
          injection hl with h1 h2
          subst h1
          rw [hf]
        | cons q qs =>
          have hq : p q.1 = false := hpre q (List.mem_cons_self q qs)
          have haq : a = q := by injection hl
          rw [haq, hq] at h
          cases h
    · rw [if_neg h]
      rw [ih]
      have hfalse : p a.1 = false := Bool.eq_false_iff.mpr h
      constructor
      · rintro ⟨pre, e, post, hl, hp, hf, hpre⟩
        refine ⟨a :: pre, e, post, by rw [hl]; rfl, hp, hf, ?_⟩
        intro e' he'
        rcases List.mem_cons.mp he' with h1 | h2
        · rw [h1]; exact hfalse
        · exact hpre e' h2
      · rintro ⟨pre, e, post, hl, hp, hf, hpre⟩
        cases pre with
        | nil =>
          have hae : a = e := by injection hl
          rw [hae, hp] at hfalse
          cases hfalse
        | cons q qs =>
          have hrest : rest = qs ++ e :: post := by injection hl
          exact ⟨qs, e, post, hrest, hp, hf,
            fun e' he' => hpre e' (List.mem_cons_of_mem q he')⟩

/-! ## String concatenation facts -/

/-- Associativity of string concatenation. -/
theorem strAppend_assoc (a b c : String) : a ++ b ++ c = a ++ (b ++ c) := by
  apply String.ext
  simp [String.data_append, List.append_assoc]

/-- The empty string is a right unit for concatenation. -/
theorem strAppend_empty (a : String) : a ++ "" = a := by
  apply String.ext
  simp [String.data_append]

/-- The empty string is a left unit for concatenation. -/
theorem empty_strAppend (a : String) : "" ++ a = a := by
  apply String.ext
  simp [String.data_append]

/-- `String.join` of a cons. -/
theorem strJoin_cons (a : String) (l : List String) :
    String.join (a :: l) = a ++ String.join l := by
  have key : ∀ (xs : List String) (init : String),
      xs.foldl (fun r s => r ++ s) init =
        init ++ xs.foldl (fun r s => r ++ s) "" := by
    intro xs
    induction xs with
    | nil => intro init; simp [strAppend_empty]
    | cons x xs ih =>
      intro init
      simp only [List.foldl_cons]
      rw [ih (init ++ x), ih ("" ++ x), empty_strAppend, strAppend_assoc]
  show List.foldl (fun r s => r ++ s) "" (a :: l) =
    a ++ List.foldl (fun r s => r ++ s) "" l
  rw [List.foldl_cons, key l ("" ++ a), empty_strAppend]

/-- The general-information text is the header followed by exactly one
block per main topic present in the record, in main-topic order, and no
block for an absent topic. -/
theorem general_info_eq (crop : String) (crop_info : CropRecord) :
    general_info crop crop_info =
      "Here's general information about " ++ crop ++ ":\n\n" ++
        String.join (main_topics.filterMap
          (fun t => (lookupKey crop_info t).map (general_block t))) := by
  have key : ∀ (l : List String) (init : String),
      l.foldl (fun response t =>
        match lookupKey crop_info t with
        | some value => response ++ general_block t value
        | none => response) init
      = init ++ String.join (l.filterMap
          (fun t => (lookupKey crop_info t).map (general_block t))) := by
    intro l
    induction l with
    | nil => intro init; simp [String.join, strAppend_empty]
    | cons t rest ih =>
      intro init
      simp only [List.foldl_cons, List.filterMap_cons]
      cases h : lookupKey crop_info t with
      | none => simp only [h, Option.map_none']; rw [ih]
      | some v =>
        simp only [h, Option.map_some']
        rw [ih, strJoin_cons, strAppend_assoc]
  exact key main_topics _

/-! ## Claim theorems -/

/-- C1: for every knowledge base and message, `detect_crop` returns `none`
exactly when no key's lowercased name is a substring of the lowercased
message, and returns `some c` exactly when `c` is the first crop key, in
the knowledge base's insertion order, whose lowercased name is a substring
of the lowercased message. -/
theorem detect_crop_first_match (kb : KnowledgeBase) (message : String) :
    (detect_crop kb message = none ↔
      ∀ e ∈ kb, strContains (strLower message) (strLower e.1) = false) ∧
    (∀ c, detect_crop kb message = some c ↔
      ∃ pre e post, kb = pre ++ e :: post ∧ e.1 = c ∧
        strContains (strLower message) (strLower c) = true ∧
        ∀ e' ∈ pre, strContains (strLower message) (strLower e'.1) = false) := by
  constructor
  · exact scanFirst_eq_none_iff _ _ kb
  · intro c
    rw [detect_crop, scanFirst_eq_some_iff]
    constructor
    · rintro ⟨pre, e, post, hl, hp, hf, hpre⟩
      refine ⟨pre, e, post, hl, hf, ?_, hpre⟩
      rw [← hf]
      exact hp
    · rintro ⟨pre, e, post, hl, he, hp, hpre⟩
      refine ⟨pre, e, post, hl, ?_, he, hpre⟩
      rw [he]
      exact hp

/-- C1 witness: in a two-crop knowledge base, a message naming both crops
detects the first one in insertion order. -/
theorem detect_crop_first_match_witness :
    detect_crop kbTwo "I love rice and wheat" = some "Wheat" :=
  ((detect_crop_first_match kbTwo "I love rice and wheat").2 "Wheat").mpr
    ⟨[], ("Wheat", [("season", FactValue.str "Rabi")]),
      [("Rice", [("season", FactValue.str "Kharif")])], rfl, rfl,
      by decide, by simp⟩

/-- C2 counterexample: the message "plant water soil" contains both
"water" and "soil", yet `find_matching_topic` resolves it to "season"
(the keyword "plant" precedes "water" in the fixed table), not to
"watering" — refuting "a message containing both 'water' and 'soil'
always resolves to watering". -/
theorem find_matching_topic_counterexample :
    strContains (strLower "plant water soil") "water" = true ∧
    strContains (strLower "plant water soil") "soil" = true ∧
    find_matching_topic "plant water soil" [] = some "season" ∧
    find_matching_topic "plant water soil" [] ≠ some "watering" :=
  ⟨by decide, by decide, by decide, by decide⟩

/-- C2 (amended): `find_matching_topic` returns the topic of the first
keyword in the fixed table order that occurs as a substring of the
lowercased message, independent of where the keywords occur in the
message text, and `none` when no keyword occurs; in particular a message
containing "water" (for instance one containing both "water" and "soil")
and containing neither of the earlier keywords "plant" and "sow" always
resolves to "watering". -/
theorem find_matching_topic_first_keyword (message : String)
    (crop_info : CropRecord) :
    (find_matching_topic message crop_info = none ↔
      ∀ e ∈ keyword_map, strContains (strLower message) e.1 = false) ∧
    (∀ topic, find_matching_topic message crop_info = some topic ↔
      ∃ pre e post, keyword_map = pre ++ e :: post ∧ e.2 = topic ∧
        strContains (strLower message) e.1 = true ∧
        ∀ e' ∈ pre, strContains (strLower message) e'.1 = false) ∧
    (strContains (strLower message) "water" = true →
      strContains (strLower message) "plant" = false →
      strContains (strLower message) "sow" = false →
      find_matching_topic message crop_info = some "watering") := by
  refine ⟨scanFirst_eq_none_iff _ _ keyword_map, ?_, ?_⟩
  · intro topic
    rw [find_matching_topic, scanFirst_eq_some_iff]
    constructor
    · rintro ⟨pre, e, post, hl, hp, hf, hpre⟩
      exact ⟨pre, e, post, hl, hf, hp, hpre⟩
    · rintro ⟨pre, e, post, hl, hf, hp, hpre⟩
      exact ⟨pre, e, post, hl, hp, hf, hpre⟩
  · intro h1 h2 h3
    simp [find_matching_topic, keyword_map, scanFirst, h1, h2, h3]

/-- C2 witness: "water the soil" contains "water" and "soil" and neither
"plant" nor "sow", so it resolves to "watering". -/
theorem find_matching_topic_first_keyword_witness :
    find_matching_topic "water the soil" [] = some "watering" :=
  (find_matching_topic_first_keyword "water the soil" []).2.2
    (by decide) (by decide) (by decide)

/-- C5: for every known crop, `get_crop_advice` with the topic omitted
produces the header followed by one formatted heading block for each main
topic of the fixed list present in the crop's record, in the fixed list
order, and no block for any main topic absent from the record. -/
theorem get_crop_advice_general (kb : KnowledgeBase) (crop : String)
    (crop_info : CropRecord) (hc : lookupKey kb crop = some crop_info) :
    get_crop_advice kb crop none =
      "Here's general information about " ++ crop ++ ":\n\n" ++
        String.join (main_topics.filterMap
          (fun t => (lookupKey crop_info t).map (general_block t))) := by
  simp only [get_crop_advice, hc, known_crop_advice]
  exact general_info_eq crop crop_info

/-- C5 witness: the Wheat record holds only `season`, so the general text
is the header followed by exactly the `season` block. -/
theorem get_crop_advice_general_witness :
    get_crop_advice kbWheatSeason "Wheat" none =
      "Here's general information about Wheat:\n\n" ++
        String.join (main_topics.filterMap
          (fun t => (lookupKey [("season", FactValue.str "Rabi")] t).map
            (general_block t))) :=
  get_crop_advice_general kbWheatSeason "Wheat"
    [("season", FactValue.str "Rabi")] rfl

/-- C3: for every crop name that is not a key of the knowledge base and
every topic argument, `get_crop_advice` returns the message naming that
crop and listing every known crop name, joined by ", " in the knowledge
base's insertion order. -/
theorem get_crop_advice_unknown_crop (kb : KnowledgeBase) (crop : String)
    (topic : Option String) (h : crop ∉ get_available_crops kb) :
    get_crop_advice kb crop topic =
      "Sorry, I don't have information about " ++ crop ++
        ". Available crops: " ++
        String.intercalate ", " (get_available_crops kb) := by
  have hl : lookupKey kb crop = none := by
    rw [lookupKey, Option.map_eq_none', List.find?_eq_none]
    intro e he hbe
    apply h
    have he1 : e.1 = crop := by simpa using hbe
    rw [get_available_crops, ← he1]
    exact List.mem_map_of_mem (fun e => e.1) he
  simp only [get_crop_advice, hl, unknown_crop_message]

/-- C3 witness: an unknown crop in the two-crop knowledge base. -/
theorem get_crop_advice_unknown_crop_witness :
    get_crop_advice kbTwo "Mango" (some "watering") =
      "Sorry, I don't have information about Mango. Available crops: Wheat, Rice" := by
  rw [get_crop_advice_unknown_crop kbTwo "Mango" (some "watering") (by decide)]
  rfl

/-- C4 counterexample: `some ""` is a given topic absent from Wheat's
record, yet `get_crop_advice` returns the general-information text rather
than the "No information available" message — Python's `if topic:` treats
the empty string like an omitted topic. -/
theorem get_crop_advice_unknown_topic_counterexample :
    lookupKey [("season", FactValue.str "Rabi")] "" = none ∧
    get_crop_advice kbWheatSeason "Wheat" (some "") =
      "Here's general information about Wheat:\n\n**Season:** Rabi\n\n" ∧
    get_crop_advice kbWheatSeason "Wheat" (some "") ≠
      "No information available for  of Wheat." :=
  ⟨by decide, by decide, by decide⟩

/-- C4 (amended): for every crop that is a key of the knowledge base and
every nonempty topic that is given but absent from that crop's record,
`get_crop_advice` returns the fixed "No information available for {topic}
of {crop}." message containing both verbatim, as a normal string result. -/
theorem get_crop_advice_unknown_topic (kb : KnowledgeBase) (crop : String)
    (crop_info : CropRecord) (topic : String)
    (hc : lookupKey kb crop = some crop_info) (hne : topic ≠ "")
    (ht : lookupKey crop_info topic = none) :
    get_crop_advice kb crop (some topic) =
      "No information available for " ++ topic ++ " of " ++ crop ++ "." := by
  simp only [get_crop_advice, hc, known_crop_advice, if_neg hne, ht]

/-- C4 witness: Wheat is known, "watering" is absent from its record. -/
theorem get_crop_advice_unknown_topic_witness :
    get_crop_advice kbWheatSeason "Wheat" (some "watering") =
      "No information available for " ++ "watering" ++ " of " ++
        "Wheat" ++ "." :=
  get_crop_advice_unknown_topic kbWheatSeason "Wheat"
    [("season", FactValue.str "Rabi")] "watering" rfl (by decide) rfl

/-- C8: loading Wheat's `watering` as the ordered list
["Water every 3 days", "Avoid waterlogging"] and asking for
("Wheat", "watering") returns exactly those two facts, each on its own
line prefixed by the source's bullet marker, in the original order. -/
theorem round_trip_wheat_watering :
    get_crop_advice kbRoundTrip "Wheat" (some "watering") =
      "â€¢ Water every 3 days\nâ€¢ Avoid waterlogging" := rfl

/-! ## Branch lemmas for `process_message` -/

/-- When the lowercased message contains a greeting substring,
`process_message` is the canned greeting response. -/
theorem process_message_greeting_eq (kb : KnowledgeBase) (message : String)
    (crop_type : Option String)
    (h : (["hello", "hi", "hey"].any
      (fun g => strContains (strLower message) g)) = true) :
    process_message kb message crop_type = greeting_response := by
  simp only [process_message]
  rw [if_pos h]

/-- When there is no greeting substring but the message contains
"what crops" or "available crops", `process_message` lists the crops. -/
theorem process_message_crops_eq (kb : KnowledgeBase) (message : String)
    (crop_type : Option String)
    (hg : (["hello", "hi", "hey"].any
      (fun g => strContains (strLower message) g)) = false)
    (hw : (strContains (strLower message) "what crops" ||
      strContains (strLower message) "available crops") = true) :
    process_message kb message crop_type =
      { response := "I have information about: " ++
          String.intercalate ", " (get_available_crops kb),
        crop_type := none,
        suggestions := some (((get_available_crops kb).take 4).map
          (fun crop => "Complete guide for " ++ crop)) } := by
  simp only [process_message]
  rw [if_neg (by simp [hg]), if_pos hw]

/-- With neither a greeting nor a crops-listing phrase, `process_message`
reduces to the crop-hint decision on the effective crop. -/
theorem process_message_other_eq (kb : KnowledgeBase) (message : String)
    (crop_type : Option String)
    (hg : (["hello", "hi", "hey"].any
      (fun g => strContains (strLower message) g)) = false)
    (hw : (strContains (strLower message) "what crops" ||
      strContains (strLower message) "available crops") = false) :
    process_message kb message crop_type =
      match (if truthy crop_type then crop_type
          else detect_crop kb message) with
      | some c =>
        if !(c == "") && (lookupKey kb c).isSome then
          { response := get_crop_advice kb c
              (find_matching_topic message ((lookupKey kb c).getD [])),
            crop_type := some c }
        else default_response
      | none => default_response := by
  simp only [process_message]
  rw [if_neg (by simp [hg]), if_neg (by simp [hw])]

/-- C6: for every message whose lowercased form contains "hello", "hi" or
"hey" as a plain substring, `process_message` returns the canned greeting
text with exactly two suggestion strings. -/
theorem process_message_greeting (kb : KnowledgeBase) (message : String)
    (crop_type : Option String)
    (h : (["hello", "hi", "hey"].any
      (fun g => strContains (strLower message) g)) = true) :
    process_message kb message crop_type = greeting_response ∧
    ∃ l, (process_message kb message crop_type).suggestions = some l ∧
      l.length = 2 := by
  have he := process_message_greeting_eq kb message crop_type h
  exact ⟨he, ["What crops do you know about?", "Tell me about wheat farming"],
    by rw [he]; rfl, rfl⟩

/-- C6 witness: "hello" on the empty knowledge base. -/
theorem process_message_greeting_witness :
    process_message [] "hello" none = greeting_response ∧
    ∃ l, (process_message [] "hello" none).suggestions = some l ∧
      l.length = 2 :=
  process_message_greeting [] "hello" none (by decide)

/-- C10: the greeting rule takes precedence over an explicit crop hint:
for every greeting-containing message and every hint, even one naming a
known crop, the response is the canned greeting with `crop_type` `none`,
so the supplied hint is dropped rather than echoed. -/
theorem process_message_greeting_drops_hint (kb : KnowledgeBase)
    (message : String) (crop_type : Option String)
    (h : (["hello", "hi", "hey"].any
      (fun g => strContains (strLower message) g)) = true) :
    (process_message kb message crop_type).crop_type = none ∧
    (process_message kb message crop_type).response = greeting_text := by
  rw [process_message_greeting_eq kb message crop_type h]
  exact ⟨rfl, rfl⟩

/-- C10 witness: hint "Wheat" names a known crop, yet "hello" drops it. -/
theorem process_message_greeting_drops_hint_witness :
    (process_message kbWheatSeason "hello" (some "Wheat")).crop_type = none ∧
    (process_message kbWheatSeason "hello" (some "Wheat")).response =
      greeting_text :=
  process_message_greeting_drops_hint kbWheatSeason "hello" (some "Wheat")
    (by decide)

/-- C7: for every message containing "what crops" or "available crops" but
no greeting substring, `process_message` lists every crop name and builds
the suggestions from the first four crop names in insertion order as
"Complete guide for {crop}", with fewer entries when fewer crops exist. -/
theorem process_message_what_crops (kb : KnowledgeBase) (message : String)
    (crop_type : Option String)
    (hg : (["hello", "hi", "hey"].any
      (fun g => strContains (strLower message) g)) = false)
    (hw : (strContains (strLower message) "what crops" ||
      strContains (strLower message) "available crops") = true) :
    process_message kb message crop_type =
      { response := "I have information about: " ++
          String.intercalate ", " (get_available_crops kb),
        crop_type := none,
        suggestions := some (((get_available_crops kb).take 4).map
          (fun crop => "Complete guide for " ++ crop)) } ∧
    ∃ l, (process_message kb message crop_type).suggestions = some l ∧
      l.length = min 4 kb.length := by
  have he := process_message_crops_eq kb message crop_type hg hw
  refine ⟨he, ((get_available_crops kb).take 4).map
    (fun crop => "Complete guide for " ++ crop), by rw [he], ?_⟩
  rw [List.length_map, List.length_take, get_available_crops,
    List.length_map]

/-- C7 witness: "what crops do you have" on the two-crop knowledge base. -/
theorem process_message_what_crops_witness :
    process_message kbTwo "what crops do you have" none =
      { response := "I have information about: " ++
          String.intercalate ", " (get_available_crops kbTwo),
        crop_type := none,
        suggestions := some (((get_available_crops kbTwo).take 4).map
          (fun crop => "Complete guide for " ++ crop)) } ∧
    ∃ l, (process_message kbTwo "what crops do you have" none).suggestions =
      some l ∧ l.length = min 4 kbTwo.length :=
  process_message_what_crops kbTwo "what crops do you have" none
    (by decide) (by decide)

/-- C9 counterexample: the explicit hint `""` is not a key of the
knowledge base, yet with the message "wheat" `process_message` does not
return the generic help response: Python's `if not crop_type:` treats the
empty hint as absent, detects "Wheat" from the message, and answers with
crop-specific advice and `crop_type` set. -/
theorem process_message_empty_hint_counterexample :
    lookupKey kbWheatSeason "" = none ∧
    (process_message kbWheatSeason "wheat" (some "")).crop_type =
      some "Wheat" ∧
    (process_message kbWheatSeason "wheat" (some "")).response ≠
      help_text ∧
    process_message kbWheatSeason "wheat" (some "") ≠ default_response :=
  ⟨rfl, rfl, by decide, by decide⟩

/-- C9 (amended): for every message containing no greeting substring and
neither "what crops" nor "available crops", if the effective crop — the
explicit hint when nonempty, otherwise the detected crop — is absent,
empty, or not a key of the knowledge base, `process_message` returns the
generic help response with its two suggestions and no crop; moreover, for
every input whatsoever, the response text is the canned greeting, the crop
listing, the canned help text, or known-crop advice for a crop present in
the knowledge base — the unknown-crop "Sorry, I don't have information
about ..." branch of `get_crop_advice` is never the source of a
`process_message` response. -/
theorem process_message_default_and_no_unknown_branch (kb : KnowledgeBase)
    (message : String) (crop_type : Option String) :
    (((["hello", "hi", "hey"].any
        (fun g => strContains (strLower message) g)) = false) →
      ((strContains (strLower message) "what crops" ||
        strContains (strLower message) "available crops") = false) →
      (∀ c, (if truthy crop_type then crop_type
          else detect_crop kb message) = some c →
        c = "" ∨ lookupKey kb c = none) →
      process_message kb message crop_type = default_response) ∧
    ((process_message kb message crop_type).response = greeting_text ∨
      (process_message kb message crop_type).response =
        "I have information about: " ++
          String.intercalate ", " (get_available_crops kb) ∨
      (process_message kb message crop_type).response = help_text ∨
      ∃ c crop_info, lookupKey kb c = some crop_info ∧
        (process_message kb message crop_type).crop_type = some c ∧
        (process_message kb message crop_type).response =
          known_crop_advice c crop_info
            (find_matching_topic message crop_info)) := by
  constructor
  · intro hg hw hc
    rw [process_message_other_eq kb message crop_type hg hw]
    cases hcase : (if truthy crop_type then crop_type
        else detect_crop kb message) with
    | none => rfl
    | some c =>
      rcases hc c hcase with h1 | h1
      · subst h1; simp
      · simp [h1]
  · by_cases hg : (["hello", "hi", "hey"].any
        (fun g => strContains (strLower message) g)) = true
    · left
      rw [process_message_greeting_eq kb message crop_type hg]
      rfl
    · have hg' : (["hello", "hi", "hey"].any
          (fun g => strContains (strLower message) g)) = false :=
        Bool.eq_false_iff.mpr hg
      by_cases hw : (strContains (strLower message) "what crops" ||
          strContains (strLower message) "available crops") = true
      · right; left
        rw [process_message_crops_eq kb message crop_type hg' hw]
      · have hw' : (strContains (strLower message) "what crops" ||
            strContains (strLower message) "available crops") = false :=
          Bool.eq_false_iff.mpr hw
        have hother := process_message_other_eq kb message crop_type hg' hw'
        cases hcase : (if truthy crop_type then crop_type
            else detect_crop kb message) with
        | none =>
          right; right; left
          rw [hother, hcase]
          rfl
        | some c =>
          by_cases hok : (!(c == "") && (lookupKey kb c).isSome) = true
          · right; right; right
            have h2 : (lookupKey kb c).isSome = true :=
              (Bool.and_eq_true _ _ |>.mp hok).2
            obtain ⟨crop_info, hci⟩ := Option.isSome_iff_exists.mp h2
            refine ⟨c, crop_info, hci, ?_, ?_⟩
            · rw [hother, hcase]
              simp [hok]
            · rw [hother, hcase]
              simp only [hok, if_pos]
              simp only [hci, Option.getD_some]
              simp only [get_crop_advice, hci]
          · right; right; left
            rw [hother, hcase]
            simp [Bool.eq_false_iff.mpr hok]
            rfl

/-- C9 witness: a message naming no crop, no hint: the help response. -/
theorem process_message_default_witness :
    process_message kbWheatSeason "good day" none = default_response := by
  apply (process_message_default_and_no_unknown_branch kbWheatSeason
    "good day" none).1 (by decide) (by decide)
  intro c hc
  have hnone : (if truthy (none : Option String) then (none : Option String)
      else detect_crop kbWheatSeason "good day") = none := by decide
  rw [hnone] at hc
  exact Option.noConfusion hc
